import Mathlib

/-!
Verification of the otelgrpc metrics module
(`instrumentation/google.golang.org/grpc/otelgrpc/grpcmetric.go`).

The Go code is shallowly embedded: the five metric-name constants, the
`MetricsReporter` registration (`NewMetricsReporter`) against an abstract
meter capability, and the body of the closure returned by
`UnaryServerInterceptor`.  Effectful metric emission is modelled as an
explicit trace of `Measurement` values produced in program order; the two
`time.Now` readings are injected as natural-number nanosecond timestamps.
Helpers that live in the same Go package but outside the file under study
(`parseFullMethod`, `statusCodeAttr`) are modelled from the specification
and marked as such in their doc comments.
-/

namespace OtelGrpc

/-- Metric name constant `ServerMsgReceivedCounter` from the source. -/
def ServerMsgReceivedCounter : String := "grpc.server.msg.received.total"

/-- Metric name constant `ServerMsgReceivedBytes` from the source. -/
def ServerMsgReceivedBytes : String := "grpc.server.msg.received.bytes"

/-- Metric name constant `ServerMsgSentCounter` from the source. -/
def ServerMsgSentCounter : String := "grpc.server.msg.sent.total"

/-- Metric name constant `ServerMsgSentBytes` from the source. -/
def ServerMsgSentBytes : String := "grpc.server.msg.sent.bytes"

/-- Metric name constant `ServerLatencyMilliseconds` from the source. -/
def ServerLatencyMilliseconds : String := "grpc.server.latency.milliseconds"

/-- The gRPC status code `codes.OK` (numeric value 0). -/
def grpcOK : Nat := 0

/-- The gRPC status code `codes.Unknown` (numeric value 2), the fallback
used by `status.FromError` for errors carrying no structured status. -/
def grpcUnknown : Nat := 2

/-- A Go `interface\x7b\x7d` value as seen by the interceptor: either the nil
interface, a protobuf message with a byte size computable by `proto.Size`,
or any other value (not a `proto.Message`). -/
inductive GoValue where
  | nilValue : GoValue
  | protoMsg (size : Nat) : GoValue
  | other : GoValue
deriving DecidableEq

/-- Models the type assertion `p, ok := v.(proto.Message)` followed by
`proto.Size(p)`: `some size` when the value is a sized protobuf payload,
`none` otherwise. -/
def protoSize : GoValue → Option Nat
  | GoValue.protoMsg n => some n
  | _ => none

/-- A Go `error` value, per the spec's typed error taxonomy: either an
error carrying a structured gRPC status code, or a plain error. -/
inductive GoError where
  | withStatus (code : Nat) (msg : String) : GoError
  | plain (msg : String) : GoError
deriving DecidableEq

/-- Models `status.FromError(err).Code()` for a non-nil error: the carried
status code when the error has a structured status, `codes.Unknown`
otherwise (the defined fallback of the grpc status package). -/
def statusCodeFromError : GoError → Nat
  | GoError.withStatus c _ => c
  | GoError.plain _ => grpcUnknown

/-- Embeds the outcome-code computation of the interceptor body
(`code := grpc_codes.OK; ...; if err != nil { code = status.Code() }`). -/
def codeFromError : Option GoError → Nat
  | none => grpcOK
  | some e => statusCodeFromError e

/-- A metric label: one key/value pair of an attribute set. -/
structure Attribute where
  key : String
  value : String
deriving DecidableEq

/-- Modelled from the spec: `statusCodeAttr` (defined elsewhere in the
otelgrpc package, not under the file studied here) produces the single
outcome-code label attached to post-call measurements. -/
def statusCodeAttr (c : Nat) : Attribute :=
  { key := "rpc.grpc.status_code", value := toString c }

/-- Builds the service/method label list: a label is emitted for each
nonempty component (best-effort partial labels). -/
def rpcAttrs (service method : String) : List Attribute :=
  (if service = "" then [] else [{ key := "rpc.service", value := service }]) ++
  (if method = "" then [] else [{ key := "rpc.method", value := method }])

/-- Splits a character list at the first occurrence of the separator:
`some (before, after)` when the separator occurs, `none` otherwise. -/
def splitFirst (sep : Char) : List Char → Option (List Char × List Char)
  | [] => none
  | c :: cs =>
      if c = sep then some ([], cs)
      else
        match splitFirst sep cs with
        | none => none
        | some p => some (c :: p.1, p.2)

/-- Modelled from the spec: `parseFullMethod` (defined elsewhere in the
otelgrpc package, not under the file studied here) parses a full method
string of the form `/service/method` into its name and the service/method
labels; a malformed string (missing leading slash or missing separator)
degrades to best-effort empty labels instead of failing. -/
def parseFullMethod (fullMethod : String) : String × List Attribute :=
  match fullMethod.data with
  | [] => (fullMethod, [])
  | c :: rest =>
      if c = '/' then
        match splitFirst '/' rest with
        | some p => (String.mk rest, rpcAttrs (String.mk p.1) (String.mk p.2))
        | none => (String.mk rest, [])
      else (fullMethod, [])

/-- One emission against an instrument, identified (per the spec's data
model) by its registered metric name: a counter `Add` or a recorder
`Record`, with the attached label list. -/
inductive Measurement where
  | add (instrument : String) (value : Int) (attrs : List Attribute) : Measurement
  | record (instrument : String) (value : Int) (attrs : List Attribute) : Measurement
deriving DecidableEq

/-- The `(value, labels)` pairs of the `Add` calls against the named
instrument, in emission order. -/
def addsTo (name : String) (ms : List Measurement) : List (Int × List Attribute) :=
  ms.filterMap fun m =>
    match m with
    | Measurement.add n v a => if n = name then some (v, a) else none
    | Measurement.record _ _ _ => none

/-- The `(value, labels)` pairs of the `Record` calls against the named
instrument, in emission order. -/
def recordsTo (name : String) (ms : List Measurement) : List (Int × List Attribute) :=
  ms.filterMap fun m =>
    match m with
    | Measurement.add _ _ _ => none
    | Measurement.record n v a => if n = name then some (v, a) else none

/-- An opaque `context.Context` value, passed through to the handler. -/
structure Context where
  id : Nat
deriving DecidableEq

/-- `grpc.UnaryServerInfo`; only the `FullMethod` field is read by the
interceptor (the `Server` field is never used). -/
structure UnaryServerInfo where
  fullMethod : String
deriving DecidableEq

/-- A `grpc.UnaryHandler`: takes the context and request, returns the
response value and an optional error. -/
def UnaryHandler : Type :=
  Context → GoValue → GoValue × Option GoError

/-- The body of the closure returned by `MetricsReporter.UnaryServerInterceptor`,
embedded as a pure function.  The two `time.Now` readings (`start` at entry
and the reading taken by `time.Since` right after the handler returns) are
injected as nanosecond timestamps `startTime` and `endTime`; the
measurements emitted against the reporter's five instruments are returned
as a trace in program order, alongside the `(resp, err)` result.
`latency.Milliseconds()` is integer division of the nanosecond duration by
1000000 (truncation). -/
def unaryServerInterceptor (ctx : Context) (req : GoValue) (info : UnaryServerInfo)
    (handler : UnaryHandler) (startTime endTime : Nat) :
    List Measurement × GoValue × Option GoError :=
  let attributes := (parseFullMethod info.fullMethod).2
  let recvCount : List Measurement :=
    [Measurement.add ServerMsgReceivedCounter 1 attributes]
  let recvBytes : List Measurement :=
    match protoSize req with
    | some n => [Measurement.record ServerMsgReceivedBytes (Int.ofNat n) attributes]
    | none => []
  let r := handler ctx req
  let resp := r.1
  let err := r.2
  let latency : Nat := endTime - startTime
  let code : Nat := codeFromError err
  let attributes2 := attributes ++ [statusCodeAttr code]
  let sent : List Measurement :=
    [Measurement.add ServerMsgSentCounter 1 attributes2,
     Measurement.record ServerLatencyMilliseconds (Int.ofNat (latency / 1000000)) attributes2]
  let sentBytes : List Measurement :=
    match protoSize resp with
    | some n => [Measurement.record ServerMsgSentBytes (Int.ofNat n) attributes2]
    | none => []
  (recvCount ++ recvBytes ++ sent ++ sentBytes, resp, err)

/-- Two successive invocations of the interceptor produced by one
`MetricsReporter`, with the inputs of each invocation given separately. -/
def invokeTwice (ctx : Context) (req : GoValue) (info : UnaryServerInfo)
    (handler : UnaryHandler) (startTime endTime : Nat) :
    (List Measurement × GoValue × Option GoError) ×
      (List Measurement × GoValue × Option GoError) :=
  (unaryServerInterceptor ctx req info handler startTime endTime,
   unaryServerInterceptor ctx req info handler startTime endTime)

/-- The two instrument kinds the registration capability can construct:
`NewInt64UpDownCounter` and `NewInt64ValueRecorder`. -/
inductive InstrumentKind where
  | upDownCounter : InstrumentKind
  | valueRecorder : InstrumentKind
deriving DecidableEq

/-- One instrument-creation request issued to the meter: which constructor
was invoked, with which name and `WithDescription` text. -/
structure MeterCall where
  kind : InstrumentKind
  name : String
  description : String
deriving DecidableEq

/-- An opaque instrument handle returned by the meter. -/
structure Instrument where
  id : Nat
deriving DecidableEq

/-- The meter capability: answers each instrument-creation request with a
handle or an error (Go returns the `(instrument, err)` pair). -/
def Meter : Type := MeterCall → Except String Instrument

/-- The first creation request of `NewMetricsReporter` (line order of the
source): the received-messages up/down counter. -/
def receivedCounterCall : MeterCall :=
  ⟨InstrumentKind.upDownCounter, ServerMsgReceivedCounter,
    "Total number of messages received on the server"⟩

/-- The second creation request: the received-bytes value recorder. -/
def receivedBytesCall : MeterCall :=
  ⟨InstrumentKind.valueRecorder, ServerMsgReceivedBytes,
    "Number of bytes received by the server"⟩

/-- The third creation request: the sent-messages up/down counter. -/
def sentCounterCall : MeterCall :=
  ⟨InstrumentKind.upDownCounter, ServerMsgSentCounter,
    "Total number of messages sent by the server"⟩

/-- The fourth creation request: the sent-bytes value recorder. -/
def sentBytesCall : MeterCall :=
  ⟨InstrumentKind.valueRecorder, ServerMsgSentBytes,
    "Number of bytes sent by the server"⟩

/-- The fifth creation request: the latency value recorder. -/
def latencyCall : MeterCall :=
  ⟨InstrumentKind.valueRecorder, ServerLatencyMilliseconds,
    "Latency recorded by the server to handle a gRPC request"⟩

/-- The `withMessage` closure of `NewMetricsReporter`: wraps an underlying
creation error in a message naming the metric that failed
(`fmt.Errorf("otelgrpc: failed to register metric \x27%s\x27: %w", metric, err)`). -/
def withMessage (err metric : String) : String :=
  "otelgrpc: failed to register metric \x27" ++ metric ++ "\x27: " ++ err

/-- The `MetricsReporter` struct: the five instrument handles. -/
structure MetricsReporter where
  serverMsgReceivedCounter : Instrument
  serverMsgReceivedBytes : Instrument
  serverMsgSentCounter : Instrument
  serverMsgSentBytes : Instrument
  serverLatencyMilliseconds : Instrument
deriving DecidableEq

/-- `NewMetricsReporter`: issues the five creation requests in source
order, aborting with a wrapped error (and a nil reporter, modelled by
`Except.error`) at the first failure; on success, bundles the five handles.
The list component is the trace of creation requests actually issued, in
order, recording the effect of each `meter.NewInt64...` call. -/
def newMetricsReporter (meter : Meter) :
    List MeterCall × Except String MetricsReporter :=
  match meter receivedCounterCall with
  | Except.error e =>
      ([receivedCounterCall], Except.error (withMessage e ServerMsgReceivedCounter))
  | Except.ok serverMsgReceivedCounter =>
    match meter receivedBytesCall with
    | Except.error e =>
        ([receivedCounterCall, receivedBytesCall],
         Except.error (withMessage e ServerMsgReceivedBytes))
    | Except.ok serverMsgReceivedBytes =>
      match meter sentCounterCall with
      | Except.error e =>
          ([receivedCounterCall, receivedBytesCall, sentCounterCall],
           Except.error (withMessage e ServerMsgSentCounter))
      | Except.ok serverMsgSentCounter =>
        match meter sentBytesCall with
        | Except.error e =>
            ([receivedCounterCall, receivedBytesCall, sentCounterCall, sentBytesCall],
             Except.error (withMessage e ServerMsgSentBytes))
        | Except.ok serverMsgSentBytes =>
          match meter latencyCall with
          | Except.error e =>
              ([receivedCounterCall, receivedBytesCall, sentCounterCall,
                sentBytesCall, latencyCall],
               Except.error (withMessage e ServerLatencyMilliseconds))
          | Except.ok serverLatencyMilliseconds =>
              ([receivedCounterCall, receivedBytesCall, sentCounterCall,
                sentBytesCall, latencyCall],
               Except.ok
                 { serverMsgReceivedCounter := serverMsgReceivedCounter
                   serverMsgReceivedBytes := serverMsgReceivedBytes
                   serverMsgSentCounter := serverMsgSentCounter
                   serverMsgSentBytes := serverMsgSentBytes
                   serverLatencyMilliseconds := serverLatencyMilliseconds })

end OtelGrpc

namespace OtelGrpc

/-- The received-count instrument receives exactly one `Add` of 1, labelled
with the method-derived attributes only. -/
lemma addsTo_receivedCounter (ctx : Context) (req : GoValue) (info : UnaryServerInfo)
    (handler : UnaryHandler) (startTime endTime : Nat) :
    addsTo ServerMsgReceivedCounter
        (unaryServerInterceptor ctx req info handler startTime endTime).1 =
      [(1, (parseFullMethod info.fullMethod).2)] := by
  cases hr : handler ctx req with
  | mk resp err =>
    cases req <;> cases resp <;>
      simp [unaryServerInterceptor, hr, protoSize, addsTo,
        ServerMsgReceivedCounter, ServerMsgReceivedBytes, ServerMsgSentCounter,
        ServerMsgSentBytes, ServerLatencyMilliseconds]

/-- The sent-count instrument receives exactly one `Add` of 1, labelled with
the method-derived attributes plus the outcome-code attribute. -/
lemma addsTo_sentCounter (ctx : Context) (req : GoValue) (info : UnaryServerInfo)
    (handler : UnaryHandler) (startTime endTime : Nat) :
    addsTo ServerMsgSentCounter
        (unaryServerInterceptor ctx req info handler startTime endTime).1 =
      [(1, (parseFullMethod info.fullMethod).2 ++
        [statusCodeAttr (codeFromError (handler ctx req).2)])] := by
  cases hr : handler ctx req with
  | mk resp err =>
    cases req <;> cases resp <;>
      simp [unaryServerInterceptor, hr, protoSize, addsTo,
        ServerMsgReceivedCounter, ServerMsgReceivedBytes, ServerMsgSentCounter,
        ServerMsgSentBytes, ServerLatencyMilliseconds]

/-- The latency instrument receives exactly one `Record` of the truncated
millisecond duration, with the full (outcome-carrying) label set. -/
lemma recordsTo_latency (ctx : Context) (req : GoValue) (info : UnaryServerInfo)
    (handler : UnaryHandler) (startTime endTime : Nat) :
    recordsTo ServerLatencyMilliseconds
        (unaryServerInterceptor ctx req info handler startTime endTime).1 =
      [(Int.ofNat ((endTime - startTime) / 1000000),
        (parseFullMethod info.fullMethod).2 ++
          [statusCodeAttr (codeFromError (handler ctx req).2)])] := by
  cases hr : handler ctx req with
  | mk resp err =>
    cases req <;> cases resp <;>
      simp [unaryServerInterceptor, hr, protoSize, recordsTo,
        ServerMsgReceivedCounter, ServerMsgReceivedBytes, ServerMsgSentCounter,
        ServerMsgSentBytes, ServerLatencyMilliseconds]

/-- The received-bytes instrument receives one `Record` of the request's
protobuf size with the method-derived labels when the request is a sized
payload, and no emission otherwise. -/
lemma recordsTo_receivedBytes (ctx : Context) (req : GoValue) (info : UnaryServerInfo)
    (handler : UnaryHandler) (startTime endTime : Nat) :
    recordsTo ServerMsgReceivedBytes
        (unaryServerInterceptor ctx req info handler startTime endTime).1 =
      (match protoSize req with
       | some n => [(Int.ofNat n, (parseFullMethod info.fullMethod).2)]
       | none => []) := by
  cases hr : handler ctx req with
  | mk resp err =>
    cases req <;> cases resp <;>
      simp [unaryServerInterceptor, hr, protoSize, recordsTo,
        ServerMsgReceivedCounter, ServerMsgReceivedBytes, ServerMsgSentCounter,
        ServerMsgSentBytes, ServerLatencyMilliseconds]

/-- The sent-bytes instrument receives one `Record` of the response's
protobuf size with the full (outcome-carrying) label set when the response
is a sized payload, and no emission otherwise. -/
lemma recordsTo_sentBytes (ctx : Context) (req : GoValue) (info : UnaryServerInfo)
    (handler : UnaryHandler) (startTime endTime : Nat) :
    recordsTo ServerMsgSentBytes
        (unaryServerInterceptor ctx req info handler startTime endTime).1 =
      (match protoSize (handler ctx req).1 with
       | some n => [(Int.ofNat n, (parseFullMethod info.fullMethod).2 ++
          [statusCodeAttr (codeFromError (handler ctx req).2)])]
       | none => []) := by
  cases hr : handler ctx req with
  | mk resp err =>
    cases req <;> cases resp <;>
      simp [unaryServerInterceptor, hr, protoSize, recordsTo,
        ServerMsgReceivedCounter, ServerMsgReceivedBytes, ServerMsgSentCounter,
        ServerMsgSentBytes, ServerLatencyMilliseconds]

/-- A character list without the separator splits to `none`. -/
lemma splitFirst_eq_none (s : List Char) (h : '/' ∉ s) :
    splitFirst '/' s = none := by
  induction s with
  | nil => rfl
  | cons c cs ih =>
    have hc : c ≠ '/' := fun hcc => h (by simp [hcc])
    have hcs : '/' ∉ cs := fun hm => h (List.mem_cons_of_mem _ hm)
    simp [splitFirst, hc, ih hcs]

/-- Splitting at the first separator recovers the two components when the
left component is separator-free. -/
lemma splitFirst_append_cons (s m : List Char) (h : '/' ∉ s) :
    splitFirst '/' (s ++ '/' :: m) = some (s, m) := by
  induction s with
  | nil => simp [splitFirst]
  | cons c cs ih =>
    have hc : c ≠ '/' := fun hcc => h (by simp [hcc])
    have hcs : '/' ∉ cs := fun hm => h (List.mem_cons_of_mem _ hm)
    simp [splitFirst, hc, ih hcs]

/-- Every label built by `rpcAttrs` has key `rpc.service` or `rpc.method`. -/
lemma mem_rpcAttrs_key (service method : String) (a : Attribute)
    (h : a ∈ rpcAttrs service method) :
    a.key = "rpc.service" ∨ a.key = "rpc.method" := by
  unfold rpcAttrs at h
  rcases List.mem_append.mp h with h1 | h1
  · split at h1 <;> simp_all
  · split at h1 <;> simp_all

/-- Every label derived from a full method string has key `rpc.service` or
`rpc.method`. -/
lemma parseFullMethod_mem_key (s : String) (a : Attribute)
    (h : a ∈ (parseFullMethod s).2) :
    a.key = "rpc.service" ∨ a.key = "rpc.method" := by
  unfold parseFullMethod at h
  split at h
  · simp at h
  · split at h
    · split at h
      · exact mem_rpcAttrs_key _ _ _ h
      · simp at h
    · simp at h

/-- Claim C1: the `(response, error)` pair returned by the interceptor is
exactly the pair returned by the wrapped handler, unmodified. -/
theorem interceptor_transparent (ctx : Context) (req : GoValue)
    (info : UnaryServerInfo) (handler : UnaryHandler) (startTime endTime : Nat) :
    (unaryServerInterceptor ctx req info handler startTime endTime).2 =
      handler ctx req := rfl

/-- Claim C2: per call, exactly one add to received-count, one add to
sent-count, one record to latency; received-bytes is recorded once exactly
when the request has a computable protobuf size, sent-bytes once exactly
when the response has one, each side independently. -/
theorem measurement_cardinalities (ctx : Context) (req : GoValue)
    (info : UnaryServerInfo) (handler : UnaryHandler) (startTime endTime : Nat) :
    (addsTo ServerMsgReceivedCounter
        (unaryServerInterceptor ctx req info handler startTime endTime).1).length = 1 ∧
    (addsTo ServerMsgSentCounter
        (unaryServerInterceptor ctx req info handler startTime endTime).1).length = 1 ∧
    (recordsTo ServerLatencyMilliseconds
        (unaryServerInterceptor ctx req info handler startTime endTime).1).length = 1 ∧
    (recordsTo ServerMsgReceivedBytes
        (unaryServerInterceptor ctx req info handler startTime endTime).1).length =
      (if (protoSize req).isSome then 1 else 0) ∧
    (recordsTo ServerMsgSentBytes
        (unaryServerInterceptor ctx req info handler startTime endTime).1).length =
      (if (protoSize (handler ctx req).1).isSome then 1 else 0) := by
  refine ⟨?_, ?_, ?_, ?_, ?_⟩
  · rw [addsTo_receivedCounter]; rfl
  · rw [addsTo_sentCounter]; rfl
  · rw [recordsTo_latency]; rfl
  · rw [recordsTo_receivedBytes]; cases protoSize req <;> rfl
  · rw [recordsTo_sentBytes]; cases protoSize (handler ctx req).1 <;> rfl

/-- Claim C3: the outcome code attached to the post-call measurements is
computed from the handler's error exactly as specified: `OK` for no error,
the carried status code for a structured-status error, `Unknown` for an
error without structured status. -/
theorem outcome_code_classification (ctx : Context) (req : GoValue)
    (info : UnaryServerInfo) (handler : UnaryHandler) (startTime endTime : Nat) :
    ((addsTo ServerMsgSentCounter
        (unaryServerInterceptor ctx req info handler startTime endTime).1).map Prod.snd =
      [(parseFullMethod info.fullMethod).2 ++
        [statusCodeAttr (codeFromError (handler ctx req).2)]]) ∧
    codeFromError none = grpcOK ∧
    (∀ c msg, codeFromError (some (GoError.withStatus c msg)) = c) ∧
    (∀ msg, codeFromError (some (GoError.plain msg)) = grpcUnknown) :=
  ⟨by rw [addsTo_sentCounter]; rfl, rfl, fun _ _ => rfl, fun _ => rfl⟩

/-- Claim C4: received-count and received-bytes carry exactly the
method-derived labels (which never contain the outcome key); sent-count,
latency, and sent-bytes all carry one identical label set equal to the
method-derived labels with exactly one trailing outcome-code label. -/
theorem label_set_discipline (ctx : Context) (req : GoValue)
    (info : UnaryServerInfo) (handler : UnaryHandler) (startTime endTime : Nat) :
    ((addsTo ServerMsgReceivedCounter
        (unaryServerInterceptor ctx req info handler startTime endTime).1).map Prod.snd =
      [(parseFullMethod info.fullMethod).2]) ∧
    ((recordsTo ServerMsgReceivedBytes
        (unaryServerInterceptor ctx req info handler startTime endTime).1).map Prod.snd =
      if (protoSize req).isSome then [(parseFullMethod info.fullMethod).2] else []) ∧
    ((addsTo ServerMsgSentCounter
        (unaryServerInterceptor ctx req info handler startTime endTime).1).map Prod.snd =
      [(parseFullMethod info.fullMethod).2 ++
        [statusCodeAttr (codeFromError (handler ctx req).2)]]) ∧
    ((recordsTo ServerLatencyMilliseconds
        (unaryServerInterceptor ctx req info handler startTime endTime).1).map Prod.snd =
      [(parseFullMethod info.fullMethod).2 ++
        [statusCodeAttr (codeFromError (handler ctx req).2)]]) ∧
    ((recordsTo ServerMsgSentBytes
        (unaryServerInterceptor ctx req info handler startTime endTime).1).map Prod.snd =
      if (protoSize (handler ctx req).1).isSome then
        [(parseFullMethod info.fullMethod).2 ++
          [statusCodeAttr (codeFromError (handler ctx req).2)]]
      else []) ∧
    (∀ a ∈ (parseFullMethod info.fullMethod).2,
      a.key ≠ (statusCodeAttr (codeFromError (handler ctx req).2)).key) := by
  refine ⟨?_, ?_, ?_, ?_, ?_, ?_⟩
  · rw [addsTo_receivedCounter]; rfl
  · rw [recordsTo_receivedBytes]; cases protoSize req <;> rfl
  · rw [addsTo_sentCounter]; rfl
  · rw [recordsTo_latency]; rfl
  · rw [recordsTo_sentBytes]; cases protoSize (handler ctx req).1 <;> rfl
  · intro a ha
    rcases parseFullMethod_mem_key info.fullMethod a ha with h | h <;>
      simp [h, statusCodeAttr]

/-- Claim C5: `NewMetricsReporter` aborts at the first failed instrument
creation, returning an error that names the failed instrument and wraps
the underlying cause, with no (partial) reporter; when all five creations
succeed it returns the reporter bundling the five handles. -/
theorem registration_fail_fast :
    (∀ (meter : Meter) (e : String),
      meter receivedCounterCall = Except.error e →
      (newMetricsReporter meter).2 =
        Except.error (withMessage e ServerMsgReceivedCounter)) ∧
    (∀ (meter : Meter) (i1 : Instrument) (e : String),
      meter receivedCounterCall = Except.ok i1 →
      meter receivedBytesCall = Except.error e →
      (newMetricsReporter meter).2 =
        Except.error (withMessage e ServerMsgReceivedBytes)) ∧
    (∀ (meter : Meter) (i1 i2 : Instrument) (e : String),
      meter receivedCounterCall = Except.ok i1 →
      meter receivedBytesCall = Except.ok i2 →
      meter sentCounterCall = Except.error e →
      (newMetricsReporter meter).2 =
        Except.error (withMessage e ServerMsgSentCounter)) ∧
    (∀ (meter : Meter) (i1 i2 i3 : Instrument) (e : String),
      meter receivedCounterCall = Except.ok i1 →
      meter receivedBytesCall = Except.ok i2 →
      meter sentCounterCall = Except.ok i3 →
      meter sentBytesCall = Except.error e →
      (newMetricsReporter meter).2 =
        Except.error (withMessage e ServerMsgSentBytes)) ∧
    (∀ (meter : Meter) (i1 i2 i3 i4 : Instrument) (e : String),
      meter receivedCounterCall = Except.ok i1 →
      meter receivedBytesCall = Except.ok i2 →
      meter sentCounterCall = Except.ok i3 →
      meter sentBytesCall = Except.ok i4 →
      meter latencyCall = Except.error e →
      (newMetricsReporter meter).2 =
        Except.error (withMessage e ServerLatencyMilliseconds)) ∧
    (∀ (meter : Meter) (i1 i2 i3 i4 i5 : Instrument),
      meter receivedCounterCall = Except.ok i1 →
      meter receivedBytesCall = Except.ok i2 →
      meter sentCounterCall = Except.ok i3 →
      meter sentBytesCall = Except.ok i4 →
      meter latencyCall = Except.ok i5 →
      (newMetricsReporter meter).2 = Except.ok ⟨i1, i2, i3, i4, i5⟩) := by
  refine ⟨?_, ?_, ?_, ?_, ?_, ?_⟩
  · intro meter e h1; simp [newMetricsReporter, h1]
  · intro meter i1 e h1 h2; simp [newMetricsReporter, h1, h2]
  · intro meter i1 i2 e h1 h2 h3; simp [newMetricsReporter, h1, h2, h3]
  · intro meter i1 i2 i3 e h1 h2 h3 h4; simp [newMetricsReporter, h1, h2, h3, h4]
  · intro meter i1 i2 i3 i4 e h1 h2 h3 h4 h5
    simp [newMetricsReporter, h1, h2, h3, h4, h5]
  · intro meter i1 i2 i3 i4 i5 h1 h2 h3 h4 h5
    simp [newMetricsReporter, h1, h2, h3, h4, h5]

/-- Witness for claim C5: a meter failing on its third creation request
(the sent-count counter) yields the error naming that instrument. -/
theorem registration_fail_fast_witness :
    (newMetricsReporter (fun c =>
        if c = sentCounterCall then Except.error "boom" else Except.ok ⟨1⟩)).2 =
      Except.error (withMessage "boom" ServerMsgSentCounter) :=
  registration_fail_fast.2.2.1
    (fun c => if c = sentCounterCall then Except.error "boom" else Except.ok ⟨1⟩)
    ⟨1⟩ ⟨1⟩ "boom" rfl rfl rfl

/-- Claim C6: the value recorded against the latency instrument is the
elapsed duration between the two clock readings, truncated to whole
milliseconds, and is never negative. -/
theorem latency_truncated_milliseconds (ctx : Context) (req : GoValue)
    (info : UnaryServerInfo) (handler : UnaryHandler) (startTime endTime : Nat)
    (h : startTime ≤ endTime) :
    ((recordsTo ServerLatencyMilliseconds
        (unaryServerInterceptor ctx req info handler startTime endTime).1).map Prod.fst =
      [Int.ofNat ((endTime - startTime) / 1000000)]) ∧
    (∀ v ∈ (recordsTo ServerLatencyMilliseconds
        (unaryServerInterceptor ctx req info handler startTime endTime).1).map Prod.fst,
      0 ≤ v) := by
  constructor
  · rw [recordsTo_latency]; rfl
  · rw [recordsTo_latency]
    intro v hv
    simp only [List.map_cons, List.map_nil, List.mem_singleton] at hv
    rw [hv]
    exact Int.ofNat_nonneg _

/-- Witness for claim C6: a call whose two clock readings coincide records
a latency of 0 milliseconds. -/
theorem latency_truncated_milliseconds_witness :
    ((recordsTo ServerLatencyMilliseconds
        (unaryServerInterceptor ⟨0⟩ GoValue.other ⟨"/pkg.Service/Get"⟩
          (fun _ v => (v, none)) 5 5).1).map Prod.fst =
      [Int.ofNat ((5 - 5) / 1000000)]) ∧
    (∀ v ∈ (recordsTo ServerLatencyMilliseconds
        (unaryServerInterceptor ⟨0⟩ GoValue.other ⟨"/pkg.Service/Get"⟩
          (fun _ v => (v, none)) 5 5).1).map Prod.fst,
      0 ≤ v) :=
  latency_truncated_milliseconds ⟨0⟩ GoValue.other ⟨"/pkg.Service/Get"⟩
    (fun _ v => (v, none)) 5 5 (by decide)

/-- Claim C7: a full method string of the form `/service/method` (nonempty
slash-free service, nonempty method) yields exactly the two labels
`rpc.service = service` and `rpc.method = method`; a string with no leading
slash, or with no second separator, degrades to empty labels and the
interceptor still returns the handler's result. -/
theorem parseFullMethod_labels :
    (∀ service method : String, service ≠ "" → method ≠ "" →
      '/' ∉ service.data →
      (parseFullMethod ("/" ++ service ++ "/" ++ method)).2 =
        [⟨"rpc.service", service⟩, ⟨"rpc.method", method⟩]) ∧
    (∀ s : String, s.data.head? ≠ some '/' →
      (parseFullMethod s).2 = [] ∧
      ∀ (ctx : Context) (req : GoValue) (handler : UnaryHandler) (st et : Nat),
        (unaryServerInterceptor ctx req ⟨s⟩ handler st et).2 = handler ctx req) ∧
    (∀ s : String, '/' ∉ s.data →
      (parseFullMethod ("/" ++ s)).2 = []) := by
  refine ⟨?_, ?_, ?_⟩
  · intro service method hs hm hslash
    have hdata : ("/" ++ service ++ "/" ++ method).data =
        '/' :: (service.data ++ '/' :: method.data) := by
      simp [String.data_append]
    unfold parseFullMethod
    rw [hdata]
    simp only [splitFirst_append_cons service.data method.data hslash]
    show rpcAttrs (String.mk service.data) (String.mk method.data) = _
    unfold rpcAttrs
    rw [if_neg, if_neg]
    · rfl
    · show String.mk method.data ≠ ""
      intro hc; exact hm (by cases method; exact hc)
    · show String.mk service.data ≠ ""
      intro hc; exact hs (by cases service; exact hc)
  · intro s h
    refine ⟨?_, fun _ _ _ _ _ => rfl⟩
    unfold parseFullMethod
    cases hd : s.data with
    | nil => rfl
    | cons c cs =>
      have hc : c ≠ '/' := by
        intro hcc
        exact h (by rw [hd, hcc]; rfl)
      simp [hc]
  · intro s hslash
    have hdata : ("/" ++ s).data = '/' :: s.data := by
      simp [String.data_append]
    unfold parseFullMethod
    rw [hdata]
    simp [splitFirst_eq_none s.data hslash]

/-- Witness for claim C7: the method `/pkg.Service/Get` produces exactly
the labels `rpc.service = pkg.Service` and `rpc.method = Get`, and a
method string without a leading slash produces no labels. -/
theorem parseFullMethod_labels_witness :
    ((parseFullMethod ("/" ++ "pkg.Service" ++ "/" ++ "Get")).2 =
      [⟨"rpc.service", "pkg.Service"⟩, ⟨"rpc.method", "Get"⟩]) ∧
    (parseFullMethod "pkg").2 = [] ∧
    (parseFullMethod ("/" ++ "pkg")).2 = [] :=
  ⟨parseFullMethod_labels.1 "pkg.Service" "Get" (by decide) (by decide) (by decide),
   (parseFullMethod_labels.2.1 "pkg" (by decide)).1,
   parseFullMethod_labels.2.2 "pkg" (by decide)⟩

/-- Claim C8: two invocations of the interceptor on identical inputs
produce identical measurement traces and identical results; no per-call
state is shared between them (the second run's output coincides with a
standalone single run). -/
theorem interceptor_idempotent (ctx : Context) (req : GoValue)
    (info : UnaryServerInfo) (handler : UnaryHandler) (startTime endTime : Nat) :
    ((invokeTwice ctx req info handler startTime endTime).1.1 =
      (invokeTwice ctx req info handler startTime endTime).2.1) ∧
    ((invokeTwice ctx req info handler startTime endTime).1 =
      (invokeTwice ctx req info handler startTime endTime).2) ∧
    ((invokeTwice ctx req info handler startTime endTime).2 =
      unaryServerInterceptor ctx req info handler startTime endTime) :=
  ⟨rfl, rfl, rfl⟩

/-- Claim C9: a meter on which all five creations succeed is asked to
create exactly these five instruments, in this order, with these kinds,
names and (nonempty) descriptions. -/
theorem registration_order_and_names :
    (∀ (meter : Meter) (i1 i2 i3 i4 i5 : Instrument),
      meter receivedCounterCall = Except.ok i1 →
      meter receivedBytesCall = Except.ok i2 →
      meter sentCounterCall = Except.ok i3 →
      meter sentBytesCall = Except.ok i4 →
      meter latencyCall = Except.ok i5 →
      (newMetricsReporter meter).1 =
        [⟨InstrumentKind.upDownCounter, "grpc.server.msg.received.total",
           "Total number of messages received on the server"⟩,
         ⟨InstrumentKind.valueRecorder, "grpc.server.msg.received.bytes",
           "Number of bytes received by the server"⟩,
         ⟨InstrumentKind.upDownCounter, "grpc.server.msg.sent.total",
           "Total number of messages sent by the server"⟩,
         ⟨InstrumentKind.valueRecorder, "grpc.server.msg.sent.bytes",
           "Number of bytes sent by the server"⟩,
         ⟨InstrumentKind.valueRecorder, "grpc.server.latency.milliseconds",
           "Latency recorded by the server to handle a gRPC request"⟩]) ∧
    receivedCounterCall.description ≠ "" ∧
    receivedBytesCall.description ≠ "" ∧
    sentCounterCall.description ≠ "" ∧
    sentBytesCall.description ≠ "" ∧
    latencyCall.description ≠ "" := by
  refine ⟨?_, by decide, by decide, by decide, by decide, by decide⟩
  intro meter i1 i2 i3 i4 i5 h1 h2 h3 h4 h5
  simp [newMetricsReporter, h1, h2, h3, h4, h5]
  decide

/-- Witness for claim C9: an always-succeeding meter is issued exactly the
five creation requests in order. -/
theorem registration_order_and_names_witness :
    (newMetricsReporter (fun _ => Except.ok ⟨0⟩)).1 =
      [⟨InstrumentKind.upDownCounter, "grpc.server.msg.received.total",
         "Total number of messages received on the server"⟩,
       ⟨InstrumentKind.valueRecorder, "grpc.server.msg.received.bytes",
         "Number of bytes received by the server"⟩,
       ⟨InstrumentKind.upDownCounter, "grpc.server.msg.sent.total",
         "Total number of messages sent by the server"⟩,
       ⟨InstrumentKind.valueRecorder, "grpc.server.msg.sent.bytes",
         "Number of bytes sent by the server"⟩,
       ⟨InstrumentKind.valueRecorder, "grpc.server.latency.milliseconds",
         "Latency recorded by the server to handle a gRPC request"⟩] :=
  registration_order_and_names.1 (fun _ => Except.ok ⟨0⟩) ⟨0⟩ ⟨0⟩ ⟨0⟩ ⟨0⟩ ⟨0⟩
    rfl rfl rfl rfl rfl

/-- Claim C10: sent-bytes recording is outcome-independent: a sized
response returned together with an error is still recorded once, with the
full label set carrying the error's outcome code; an unsized (or nil)
response is never recorded, even on success. -/
theorem sentBytes_outcome_independent (ctx : Context) (req : GoValue)
    (info : UnaryServerInfo) (startTime endTime : Nat) :
    (∀ (sz : Nat) (e : GoError),
      recordsTo ServerMsgSentBytes
        (unaryServerInterceptor ctx req info
          (fun _ _ => (GoValue.protoMsg sz, some e)) startTime endTime).1 =
      [(Int.ofNat sz, (parseFullMethod info.fullMethod).2 ++
        [statusCodeAttr (statusCodeFromError e)])]) ∧
    (∀ handler : UnaryHandler, protoSize (handler ctx req).1 = none →
      recordsTo ServerMsgSentBytes
        (unaryServerInterceptor ctx req info handler startTime endTime).1 = []) := by
  constructor
  · intro sz e
    rw [recordsTo_sentBytes]
    rfl
  · intro handler hnone
    rw [recordsTo_sentBytes, hnone]

/-- Witness for claim C10: a handler answering a 7-byte payload together
with a NotFound-status error still gets its payload size recorded, while a
handler answering a nil response with no error records nothing. -/
theorem sentBytes_outcome_independent_witness :
    (recordsTo ServerMsgSentBytes
        (unaryServerInterceptor ⟨0⟩ GoValue.other ⟨"/pkg.Service/Get"⟩
          (fun _ _ => (GoValue.protoMsg 7, some (GoError.withStatus 5 "not found")))
          0 0).1 =
      [(Int.ofNat 7, (parseFullMethod "/pkg.Service/Get").2 ++
        [statusCodeAttr (statusCodeFromError (GoError.withStatus 5 "not found"))])]) ∧
    (recordsTo ServerMsgSentBytes
        (unaryServerInterceptor ⟨0⟩ GoValue.other ⟨"/pkg.Service/Get"⟩
          (fun _ _ => (GoValue.nilValue, none)) 0 0).1 = []) :=
  ⟨(sentBytes_outcome_independent ⟨0⟩ GoValue.other ⟨"/pkg.Service/Get"⟩ 0 0).1
      7 (GoError.withStatus 5 "not found"),
   (sentBytes_outcome_independent ⟨0⟩ GoValue.other ⟨"/pkg.Service/Get"⟩ 0 0).2
      (fun _ _ => (GoValue.nilValue, none)) rfl⟩

end OtelGrpc
